import Mathlib

/-!
Shallow embedding of the ssl_checker program (src/main.rs) and proofs about it.

The program reads a domain list file, probes every retained domain concurrently
(each probe racing a 5-second timeout), classifies each outcome into a
`SiteResult`, and sorts the results ascending by `days_left` before rendering.

The network and the tokio timeout race are modelled by an oracle
`fetch : String → FetchOutcome` giving, per domain, the observed outcome of
`timeout(Duration::from_secs(5), check_ssl_expiry(&domain)).await`:
`Ok(Ok(expiry))`, `Ok(Err(e))` or `Err(Elapsed)`.  Timestamps are Unix seconds
as `Int` (chrono works at this precision for all the operations the program
uses: `timestamp()`, `from_timestamp`, `signed_duration_since(..).num_days()`,
`format`).
-/

/-- Unicode White_Space property, the predicate behind Rust `char::is_whitespace`
(used by `str::trim` in `run_checks`). -/
def rustIsWhitespace (c : Char) : Bool :=
  let n := c.toNat
  decide ((9 ≤ n ∧ n ≤ 13) ∨ n = 32 ∨ n = 133 ∨ n = 160 ∨ n = 5760 ∨
    (8192 ≤ n ∧ n ≤ 8202) ∨ n = 8232 ∨ n = 8233 ∨ n = 8239 ∨ n = 8287 ∨ n = 12288)

/-- Rust `str::trim`: drop leading and trailing `White_Space` characters. -/
def rustTrim (s : String) : String :=
  String.mk (((s.data.dropWhile rustIsWhitespace).reverse.dropWhile rustIsWhitespace).reverse)

/-- Finish one line produced by Rust `str::lines`: a line that was terminated by
a line feed has one trailing carriage return stripped.  The accumulator holds
the characters of the line in reverse order. -/
def finishLine (acc : List Char) : String :=
  match acc with
  | '\r' :: rest => String.mk rest.reverse
  | _ => String.mk acc.reverse

/-- Worker for `rustLines`: split at every line feed; the final segment is kept
only when non-empty (Rust: the final line ending is optional) and, not being
terminated by a line feed, keeps any trailing carriage return. -/
def rustLinesAux : List Char → List Char → List String
  | [], acc => if acc.isEmpty then [] else [String.mk acc.reverse]
  | c :: cs, acc =>
    if c = '\n' then finishLine acc :: rustLinesAux cs []
    else rustLinesAux cs (c :: acc)

/-- Rust `str::lines`, as iterated by `run_checks` over the file contents. -/
def rustLines (s : String) : List String :=
  rustLinesAux s.data []

/-- Rust `str::starts_with('#')` on the trimmed line. -/
def startsWithHash (s : String) : Bool :=
  match s.data with
  | c :: _ => c = '#'
  | [] => false

/-- The per-line retention rule of `run_checks`: trim the line, then skip it
when it is empty or starts with a hash, otherwise keep the trimmed domain. -/
def retainLine (line : String) : Option String :=
  let domain := rustTrim line
  if domain.data.isEmpty || startsWithHash domain then none else some domain

/-- The retained domains of the file contents, in file order: the lines that
survive the trim/skip rule of `run_checks`. -/
def domainsOf (contents : String) : List String :=
  (rustLines contents).filterMap retainLine

/-- Observed outcome of racing `check_ssl_expiry(&domain)` against the
5-second `tokio::time::timeout` in `run_checks`:
`Ok(Ok(expiry))`, `Ok(Err(e))` (any fetch error) or `Err(Elapsed)`. -/
inductive FetchOutcome where
  | success (notAfter : Int)
  | failure (reason : String)
  | timedOut
  deriving Repr, DecidableEq

/-- The record built per domain by `run_checks` (struct `SiteResult`). -/
structure SiteResult where
  domain : String
  status : String
  expiry : String
  days_left : Int
  deriving Repr, DecidableEq

/-- Chrono `Duration::num_days` of a whole-second duration: whole days,
truncated toward zero (`num_seconds() / 86400` in Rust integer division). -/
def num_days (seconds : Int) : Int :=
  seconds.tdiv 86400

/-- Civil date (year, month, day) of a day count relative to 1970-01-01,
proleptic Gregorian calendar (what chrono prints for a UTC datetime). -/
def civilFromDays (z0 : Int) : Int × Int × Int :=
  let z := z0 + 719468
  let era := z.fdiv 146097
  let doe := z - era * 146097
  let yoe := (doe - doe.tdiv 1460 + doe.tdiv 36524 - doe.tdiv 146096).tdiv 365
  let y := yoe + era * 400
  let doy := doe - (365 * yoe + yoe.tdiv 4 - yoe.tdiv 100)
  let mp := (5 * doy + 2).tdiv 153
  let d := doy - (153 * mp + 2).tdiv 5 + 1
  let m := mp + (if mp < 10 then 3 else -9)
  (y + (if m ≤ 2 then 1 else 0), m, d)

/-- Left-pad a digit string with zeros to the given width. -/
def zeroPad (w : Nat) (s : String) : String :=
  if s.length ≥ w then s else String.mk (List.replicate (w - s.length) '0') ++ s

/-- Chrono `%Y`: proleptic Gregorian year, zero-padded to 4 digits, with an
explicit sign outside 0000-9999. -/
def formatYear (y : Int) : String :=
  if y < 0 then "-" ++ zeroPad 4 (toString y.natAbs)
  else if y > 9999 then "+" ++ toString y.natAbs
  else zeroPad 4 (toString y.natAbs)

/-- Chrono `expiry.format("%Y-%m-%d").to_string()` on a Unix-seconds instant:
the calendar day is the floor of the second count over 86400. -/
def formatDate (ts : Int) : String :=
  match civilFromDays (ts.fdiv 86400) with
  | (y, m, d) => formatYear y ++ "-" ++ zeroPad 2 (toString m.natAbs) ++ "-" ++ zeroPad 2 (toString d.natAbs)

/-- The body of the task `run_checks` spawns per domain, after the timeout
race resolved: build the `SiteResult` from the match on the raced outcome. -/
def classify (now : Int) (domain : String) : FetchOutcome → SiteResult
  | FetchOutcome.success expiry =>
    let days := num_days (expiry - now)
    { domain := domain
      status := if days < 7 then "EXPIRED" else "VALID"
      expiry := formatDate expiry
      days_left := days }
  | _ =>
    { domain := domain
      status := "ERROR"
      expiry := "N/A"
      days_left := 9999 }

/-- `run_checks`: read the file (`unwrap_or_default`: a failed read behaves as
empty contents), retain the trimmed non-blank non-comment lines, probe each
and collect one `SiteResult` per retained domain, in spawn order (the join
loop pushes results in the order the tasks were spawned). -/
def run_checks (fileContents : Option String) (fetch : String → FetchOutcome) (now : Int) :
    List SiteResult :=
  let contents := fileContents.getD ""
  (domainsOf contents).map (fun domain => classify now domain (fetch domain))

/-- Comparison used by `sites.sort_by_key(|s| s.days_left)` in `handler`. -/
def daysLe (a b : SiteResult) : Prop :=
  a.days_left ≤ b.days_left

instance : DecidableRel daysLe :=
  fun a b => Int.decLe a.days_left b.days_left

instance : IsTotal SiteResult daysLe :=
  ⟨fun a b => Int.le_total a.days_left b.days_left⟩

instance : IsTrans SiteResult daysLe :=
  ⟨fun _ _ _ hab hbc => Int.le_trans hab hbc⟩

/-- Rust slice `sort_by_key` is a stable sort; for a fixed key every stable
ascending sort yields the same sequence, here realised by insertion sort. -/
def sortByDaysLeft (sites : List SiteResult) : List SiteResult :=
  List.insertionSort daysLe sites

/-- `handler`: run the checks and hand presentation the results sorted
ascending by `days_left`. -/
def handler (fileContents : Option String) (fetch : String → FetchOutcome) (now : Int) :
    List SiteResult :=
  sortByDaysLeft (run_checks fileContents fetch now)

/-- Chrono `DateTime::from_timestamp(secs, 0)`: defined exactly on the
representable range of seconds (years -262144 to 262143). -/
def dateTimeFromTimestamp (secs : Int) : Option Int :=
  if -8334601228800 ≤ secs ∧ secs ≤ 8210266876799 then some secs else none

/-- Final step of `check_ssl_expiry`: convert the certificate's not-after
timestamp; `unwrap_or_default()` substitutes the Unix epoch when the
conversion fails, and the function returns `Ok` either way. -/
def check_ssl_expiry_final (expiry_ts : Int) : Except String Int :=
  Except.ok ((dateTimeFromTimestamp expiry_ts).getD 0)

example : rustTrim "  a.example\t" = "a.example" := by decide
example : rustLines "a\r\nb\nc" = ["a", "b", "c"] := by decide
example : rustLines "a\n" = ["a"] := by decide
example : rustLines "" = [] := by decide
example : domainsOf "a.example\n# comment\n\nb.example" = ["a.example", "b.example"] := by decide
example : num_days (-1) = 0 := by decide
example : num_days 604800 = 7 := by decide
example : formatDate 0 = "1970-01-01" := by decide

theorem classify_domain (now : Int) (d : String) (o : FetchOutcome) :
    (classify now d o).domain = d := by
  cases o <;> rfl

theorem run_checks_map_domain (fileContents : Option String) (fetch : String → FetchOutcome)
    (now : Int) :
    (run_checks fileContents fetch now).map SiteResult.domain = domainsOf (fileContents.getD "") := by
  simp [run_checks, List.map_map, Function.comp_def, classify_domain]

theorem mem_run_checks {r : SiteResult} {fileContents : Option String}
    {fetch : String → FetchOutcome} {now : Int}
    (h : r ∈ run_checks fileContents fetch now) :
    ∃ d, r = classify now d (fetch d) := by
  simp only [run_checks, List.mem_map] at h
  obtain ⟨d, _, hd⟩ := h
  exact ⟨d, hd.symm⟩

theorem classify_status_cases (now : Int) (d : String) (o : FetchOutcome) :
    (classify now d o).status = "VALID" ∨ (classify now d o).status = "EXPIRED" ∨
      (classify now d o).status = "ERROR" := by
  cases o with
  | success ts =>
    by_cases hlt : num_days (ts - now) < 7
    · exact Or.inr (Or.inl (by simp [classify, hlt]))
    · exact Or.inl (by simp [classify, hlt])
  | failure r => exact Or.inr (Or.inr rfl)
  | timedOut => exact Or.inr (Or.inr rfl)

theorem classify_error_fields (now : Int) (d : String) (o : FetchOutcome)
    (h : (classify now d o).status = "ERROR") :
    (classify now d o).days_left = 9999 ∧ (classify now d o).expiry = "N/A" := by
  cases o with
  | success ts =>
    exfalso
    by_cases hlt : num_days (ts - now) < 7
    · have hs : (classify now d (FetchOutcome.success ts)).status = "EXPIRED" := by
        simp [classify, hlt]
      rw [hs] at h
      exact absurd h (by decide)
    · have hs : (classify now d (FetchOutcome.success ts)).status = "VALID" := by
        simp [classify, hlt]
      rw [hs] at h
      exact absurd h (by decide)
  | failure r => exact ⟨rfl, rfl⟩
  | timedOut => exact ⟨rfl, rfl⟩

theorem sorted_handler (fileContents : Option String) (fetch : String → FetchOutcome) (now : Int) :
    List.Sorted daysLe (handler fileContents fetch now) :=
  List.sorted_insertionSort daysLe (run_checks fileContents fetch now)

theorem perm_sortByDaysLeft (l : List SiteResult) : List.Perm (sortByDaysLeft l) l :=
  List.perm_insertionSort daysLe l

theorem filter_sortByDaysLeft (p : SiteResult → Bool)
    (hp : ∀ a b : SiteResult, p a = true → p b = true → daysLe a b) (l : List SiteResult) :
    (sortByDaysLeft l).filter p = l.filter p := by
  have hperm : List.Perm ((sortByDaysLeft l).filter p) (l.filter p) :=
    (List.perm_insertionSort daysLe l).filter p
  have hpw : (l.filter p).Pairwise daysLe :=
    List.pairwise_of_forall_mem_list (fun a ha b hb =>
      hp a b (List.of_mem_filter ha) (List.of_mem_filter hb))
  have hsub : List.Sublist (l.filter p) (sortByDaysLeft l) :=
    List.sublist_insertionSort hpw (List.filter_sublist l)
  have hself : (l.filter p).filter p = l.filter p :=
    List.filter_eq_self.mpr (fun a ha => List.of_mem_filter ha)
  have hsub2 : List.Sublist (l.filter p) ((sortByDaysLeft l).filter p) := by
    have h2 := hsub.filter p
    rwa [hself] at h2
  exact (hsub2.eq_of_length hperm.length_eq.symm).symm

/-- Claim C1: the batch produces exactly one SiteResult per retained input
domain (non-blank, non-comment trimmed line), in spawn order: mapping each
result to its domain gives back exactly the retained domain list, so no
domain is dropped and none is duplicated, whatever the fetch outcomes are. -/
theorem C1_one_result_per_retained_domain (contents : String) (fetch : String → FetchOutcome)
    (now : Int) :
    (run_checks (some contents) fetch now).map SiteResult.domain = domainsOf contents :=
  run_checks_map_domain (some contents) fetch now

/-- Claim C2: the sequence handed to presentation is sorted ascending by
days_left (every adjacent pair is non-decreasing) and the sort is stable:
for every key value, the results with that days_left appear in the same
relative order as in the pre-sort run_checks output. -/
theorem C2_sorted_ascending_stable (fileContents : Option String)
    (fetch : String → FetchOutcome) (now : Int) :
    List.Chain' daysLe (handler fileContents fetch now) ∧
    ∀ k : Int, (handler fileContents fetch now).filter (fun s => s.days_left == k) =
      (run_checks fileContents fetch now).filter (fun s => s.days_left == k) := by
  constructor
  · exact List.Pairwise.chain' (sorted_handler fileContents fetch now)
  · intro k
    apply filter_sortByDaysLeft
    intro a b ha hb
    have ha' : a.days_left = k := by simpa using ha
    have hb' : b.days_left = k := by simpa using hb
    simp [daysLe, ha', hb']

/-- Sorted output of a batch with one failed domain (classified ERROR with
sentinel days_left 9999) and one domain whose certificate expires 10000 days
after now (classified VALID with days_left 10000). -/
def C3cexOut : List SiteResult :=
  handler (some "err.example\nbig.example")
    (fun d => if d = "big.example" then FetchOutcome.success 864000000
      else FetchOutcome.failure "connect error") 0

/-- Claim C3 as stated is false: days_left of a VALID result is not bounded
by the ERROR sentinel, so in `C3cexOut` the ERROR entry (days_left 9999)
sorts before the VALID entry (days_left 10000), not after it. -/
theorem C3_counterexample :
    ¬ (∀ i j : Fin C3cexOut.length,
        (C3cexOut.get i).status = "ERROR" →
        ((C3cexOut.get j).status = "VALID" ∨ (C3cexOut.get j).status = "EXPIRED") →
        (j : Nat) < (i : Nat)) := by
  decide

/-- Claim C3 (amended): in the sorted output, every ERROR result appears
after every VALID or EXPIRED result whose days_left is below the ERROR
sentinel 9999 (a successfully probed certificate with days_left of 9999 or
more can sort at or after an ERROR entry, so the sub-sentinel restriction is
needed). -/
theorem C3_error_after_urgent (fileContents : Option String) (fetch : String → FetchOutcome)
    (now : Int) (i j : Fin (handler fileContents fetch now).length)
    (hi : ((handler fileContents fetch now).get i).status = "ERROR")
    (hj : ((handler fileContents fetch now).get j).status = "VALID" ∨
      ((handler fileContents fetch now).get j).status = "EXPIRED")
    (hjd : ((handler fileContents fetch now).get j).days_left < 9999) :
    (j : Nat) < (i : Nat) := by
  by_contra hnot
  push_neg at hnot
  have hne : (i : Nat) ≠ (j : Nat) := by
    intro e
    have hij : i = j := Fin.ext e
    rw [hij] at hi
    rcases hj with h | h <;> rw [hi] at h <;> exact absurd h (by decide)
  have hlt : (i : Nat) < (j : Nat) := lt_of_le_of_ne hnot hne
  have hfin : i < j := hlt
  have hrel : daysLe ((handler fileContents fetch now).get i)
      ((handler fileContents fetch now).get j) :=
    (sorted_handler fileContents fetch now).rel_get_of_lt hfin
  have hmem : (handler fileContents fetch now).get i ∈ run_checks fileContents fetch now :=
    (perm_sortByDaysLeft (run_checks fileContents fetch now)).mem_iff.mp
      (List.get_mem _ i.1 i.2)
  obtain ⟨d, hd⟩ := mem_run_checks hmem
  have h9 : ((handler fileContents fetch now).get i).days_left = 9999 := by
    rw [hd]
    exact (classify_error_fields now d (fetch d) (hd ▸ hi)).1
  have hrel' : ((handler fileContents fetch now).get i).days_left ≤
      ((handler fileContents fetch now).get j).days_left := hrel
  omega

/-- Sorted output of a batch with one failed domain (ERROR, sentinel 9999)
and one domain whose certificate expires at now (EXPIRED, days_left 0). -/
def C3witOut : List SiteResult :=
  handler (some "a.example\nb.example")
    (fun d => if d = "b.example" then FetchOutcome.success 0
      else FetchOutcome.failure "connect error") 0

theorem C3_error_after_urgent_witness :
    (C3witOut.get ⟨1, by decide⟩).status = "ERROR" ∧
    ((C3witOut.get ⟨0, by decide⟩).status = "VALID" ∨
      (C3witOut.get ⟨0, by decide⟩).status = "EXPIRED") ∧
    (C3witOut.get ⟨0, by decide⟩).days_left < 9999 ∧
    (0 : Nat) < (1 : Nat) :=
  ⟨by decide, by decide, by decide,
    C3_error_after_urgent (some "a.example\nb.example")
      (fun d => if d = "b.example" then FetchOutcome.success 0
        else FetchOutcome.failure "connect error") 0
      ⟨1, by decide⟩ ⟨0, by decide⟩ (by decide) (by decide) (by decide)⟩

/-- Claim C4: for a successful fetch the classifier marks EXPIRED exactly
when the computed days_left is strictly below 7 and VALID otherwise; a
certificate whose not_after is exactly 7 days after now is VALID, and one 6
days after now is EXPIRED. -/
theorem C4_expiry_threshold (now : Int) (domain : String) (notAfter : Int) :
    ((classify now domain (FetchOutcome.success notAfter)).status = "EXPIRED" ↔
      (classify now domain (FetchOutcome.success notAfter)).days_left < 7) ∧
    ((classify now domain (FetchOutcome.success notAfter)).status = "VALID" ↔
      ¬ (classify now domain (FetchOutcome.success notAfter)).days_left < 7) ∧
    (classify now domain (FetchOutcome.success (now + 7 * 86400))).status = "VALID" ∧
    (classify now domain (FetchOutcome.success (now + 6 * 86400))).status = "EXPIRED" := by
  have h7 : num_days (now + 7 * 86400 - now) = 7 := by
    have e : now + 7 * 86400 - now = 7 * 86400 := by ring
    rw [e]; decide
  have h6 : num_days (now + 6 * 86400 - now) = 6 := by
    have e : now + 6 * 86400 - now = 6 * 86400 := by ring
    rw [e]; decide
  refine ⟨?_, ?_, ?_, ?_⟩
  · by_cases hlt : num_days (notAfter - now) < 7 <;> simp [classify, hlt]
  · by_cases hlt : num_days (notAfter - now) < 7 <;> simp [classify, hlt]
  · simp [classify, h7]
    decide
  · simp [classify, h6]
    decide

/-- Claim C5: a successful fetch whose not_after is one second earlier than
now yields a non-positive days_left (truncating day division gives 0) and
EXPIRED status. -/
theorem C5_one_second_past (now : Int) (domain : String) :
    (classify now domain (FetchOutcome.success (now - 1))).days_left ≤ 0 ∧
    (classify now domain (FetchOutcome.success (now - 1))).status = "EXPIRED" := by
  have h : num_days (now - 1 - now) = 0 := by
    have e : now - 1 - now = -1 := by ring
    rw [e]; decide
  refine ⟨?_, ?_⟩ <;> simp [classify, h] <;> decide

/-- Claim C6: a Failure or TimedOut outcome classifies to status ERROR,
expiry "N/A" and the single sentinel days_left 9999, and every retained
sibling domain still receives its own result (one result per retained
domain regardless of outcomes). -/
theorem C6_failure_timeout_error (now : Int) (domain : String) (o : FetchOutcome)
    (contents : String) (fetch : String → FetchOutcome)
    (h : (∃ reason, o = FetchOutcome.failure reason) ∨ o = FetchOutcome.timedOut) :
    classify now domain o =
      { domain := domain, status := "ERROR", expiry := "N/A", days_left := 9999 } ∧
    (run_checks (some contents) fetch now).map SiteResult.domain = domainsOf contents := by
  constructor
  · rcases h with ⟨r, rfl⟩ | rfl <;> rfl
  · exact run_checks_map_domain (some contents) fetch now

theorem C6_failure_timeout_error_witness :
    ((∃ reason, FetchOutcome.timedOut = FetchOutcome.failure reason) ∨
      FetchOutcome.timedOut = FetchOutcome.timedOut) ∧
    (classify 0 "a.example" FetchOutcome.timedOut =
      { domain := "a.example", status := "ERROR", expiry := "N/A", days_left := 9999 } ∧
    (run_checks (some "a.example\nb.example") (fun _ => FetchOutcome.timedOut) 0).map
      SiteResult.domain = domainsOf "a.example\nb.example") :=
  ⟨Or.inr rfl,
    C6_failure_timeout_error 0 "a.example" FetchOutcome.timedOut "a.example\nb.example"
      (fun _ => FetchOutcome.timedOut) (Or.inr rfl)⟩

/-- Modelled from the spec: the spec's stated policy that failure to obtain
the domain list is fatal and aborts the whole run before any probing starts
(the abort is the `none` branch); the successful branch behaves as the
translated `run_checks`.  Stated only for comparison with `run_checks`,
whose `unwrap_or_default` is translated from the source. -/
def run_checksSpecAbort (fileContents : Option String) (fetch : String → FetchOutcome)
    (now : Int) : Option (List SiteResult) :=
  match fileContents with
  | none => none
  | some contents => some ((domainsOf contents).map (fun domain => classify now domain (fetch domain)))

/-- Claim C7 as stated is false: when the domain-list file cannot be read,
the code does not abort; `unwrap_or_default` turns the failed read into
empty contents and the batch completes normally with an empty result list,
diverging from the spec-modelled fatal-abort behaviour. -/
theorem C7_counterexample :
    run_checksSpecAbort none (fun _ => FetchOutcome.timedOut) 0 = none ∧
    run_checks none (fun _ => FetchOutcome.timedOut) 0 = [] ∧
    ¬ run_checksSpecAbort none (fun _ => FetchOutcome.timedOut) 0 =
        some (run_checks none (fun _ => FetchOutcome.timedOut) 0) := by
  refine ⟨rfl, rfl, ?_⟩
  simp [run_checksSpecAbort]

/-- Claim C7 (amended): a failed read of the domain-list file does not abort
the run; the contents default to empty, no domain is probed and the batch
returns an empty result list.  The second conjunct is the part of the claim
that survives: no per-domain error ever aborts the batch, every retained
domain gets a result whatever its outcome. -/
theorem C7_no_abort_on_read_failure (fetch : String → FetchOutcome) (now : Int)
    (contents : String) :
    run_checks none fetch now = [] ∧
    (run_checks (some contents) fetch now).length = (domainsOf contents).length := by
  constructor
  · rfl
  · have h : (run_checks (some contents) fetch now).map SiteResult.domain =
        domainsOf contents := run_checks_map_domain (some contents) fetch now
    rw [← h, List.length_map]

/-- Claim C8: each input line is trimmed first and skipped exactly when the
trimmed line is empty or starts with a hash; a retained line contributes its
trimmed form; the four-line example yields exactly the two real domains. -/
theorem C8_line_retention (line : String) (fetch : String → FetchOutcome) (now : Int) :
    (retainLine line = none ↔
      ((rustTrim line).data = [] ∨ (rustTrim line).data.head? = some '#')) ∧
    (retainLine line = none ∨ retainLine line = some (rustTrim line)) ∧
    (run_checks (some "a.example\n# comment\n\nb.example") fetch now).map SiteResult.domain =
      ["a.example", "b.example"] := by
  refine ⟨?_, ?_, ?_⟩
  · simp only [retainLine]
    rcases hd : (rustTrim line).data with _ | ⟨c, cs⟩
    · simp [startsWithHash, hd]
    · by_cases hc : c = '#' <;> simp [startsWithHash, hd, hc]
  · by_cases hcond : (rustTrim line).data.isEmpty || startsWithHash (rustTrim line) <;>
      simp [retainLine, hcond]
  · rw [run_checks_map_domain]
    decide

/-- Claim C9: when the certificate's not-after timestamp cannot be converted
to an absolute time, `check_ssl_expiry` does not fail: it substitutes the
Unix epoch and still returns success. -/
theorem C9_epoch_fallback (expiry_ts : Int)
    (h : dateTimeFromTimestamp expiry_ts = none) :
    check_ssl_expiry_final expiry_ts = Except.ok 0 := by
  simp [check_ssl_expiry_final, h]

theorem C9_epoch_fallback_witness :
    dateTimeFromTimestamp 9000000000000 = none ∧
    check_ssl_expiry_final 9000000000000 = Except.ok 0 :=
  ⟨by decide, C9_epoch_fallback 9000000000000 (by decide)⟩

/-- Claim C10: every result of a batch has status VALID, EXPIRED or ERROR;
ERROR forces days_left 9999 and expiry "N/A"; VALID or EXPIRED forces a
formatted date string as expiry. -/
theorem C10_status_invariant (fileContents : Option String) (fetch : String → FetchOutcome)
    (now : Int) (r : SiteResult) (h : r ∈ run_checks fileContents fetch now) :
    (r.status = "VALID" ∨ r.status = "EXPIRED" ∨ r.status = "ERROR") ∧
    (r.status = "ERROR" → r.days_left = 9999 ∧ r.expiry = "N/A") ∧
    ((r.status = "VALID" ∨ r.status = "EXPIRED") → ∃ ts, r.expiry = formatDate ts) := by
  obtain ⟨d, rfl⟩ := mem_run_checks h
  refine ⟨classify_status_cases now d (fetch d), classify_error_fields now d (fetch d), ?_⟩
  intro hVE
  cases hfd : fetch d with
  | success ts => exact ⟨ts, rfl⟩
  | failure reason =>
    rw [hfd] at hVE
    rw [show (classify now d (FetchOutcome.failure reason)).status = "ERROR" from rfl] at hVE
    rcases hVE with hv | hv <;> exact absurd hv (by decide)
  | timedOut =>
    rw [hfd] at hVE
    rw [show (classify now d FetchOutcome.timedOut).status = "ERROR" from rfl] at hVE
    rcases hVE with hv | hv <;> exact absurd hv (by decide)

/-- The single result of the one-domain batch used to witness C10. -/
def C10res : SiteResult :=
  { domain := "a.example", status := "ERROR", expiry := "N/A", days_left := 9999 }

theorem C10_status_invariant_witness :
    C10res ∈ run_checks (some "a.example") (fun _ => FetchOutcome.timedOut) 0 ∧
    ((C10res.status = "VALID" ∨ C10res.status = "EXPIRED" ∨ C10res.status = "ERROR") ∧
    (C10res.status = "ERROR" → C10res.days_left = 9999 ∧ C10res.expiry = "N/A") ∧
    ((C10res.status = "VALID" ∨ C10res.status = "EXPIRED") → ∃ ts, C10res.expiry = formatDate ts)) :=
  ⟨by decide,
    C10_status_invariant (some "a.example") (fun _ => FetchOutcome.timedOut) 0 C10res (by decide)⟩
